import Mathlib

/-!
Verification of the terminal writer module (`src/tox/terminalwriter.py`).

The Python source is shallowly embedded below: pure computations become Lean
functions, the writer's mutable `_current_line` state becomes explicit state
passing, and Python integers become `Int`/`Nat` (Python `//` is floor
division, embedded as `Int.fdiv`).  The embedding models the non-Windows
code path (`IS_WINDOWS = False`), matching the platform-independent reading
of the claims.
-/

deriving instance DecidableEq for Except

namespace TerminalWriter

/-- Embeds `IS_WINDOWS = platform == "win32"`; the model is of the
non-Windows code path, so the `fullwidth -= 1` adjustment in `sep` is
inactive, exactly as on any POSIX platform. -/
def IS_WINDOWS : Bool := false

/-- The six East Asian Width classes returned by Python's
`unicodedata.east_asian_width`. -/
inductive EAW where
  | A   -- Ambiguous
  | F   -- Fullwidth
  | H   -- Halfwidth
  | N   -- Neutral
  | Na  -- Narrow
  | W   -- Wide
deriving DecidableEq, Repr

/-- Modelled from the Unicode East Asian Width property data consulted by the
source through `unicodedata.east_asian_width` (the table itself is library
data, not code of this repository).  The partial table below covers the
classes of ASCII, the major CJK/Halfwidth/Fullwidth blocks (including
U+6F22 `漢`, class `W`), and defaults to Neutral elsewhere, as the property
does for unassigned code points. -/
def east_asian_width (c : Char) : EAW :=
  let v := c.val
  if v < 0x20 then .N                             -- C0 controls
  else if v ≤ 0x7E then .Na                       -- printable ASCII
  else if v < 0xA1 then .N
  else if v = 0x20A9 then .H                      -- won sign
  else if 0x1100 ≤ v ∧ v ≤ 0x115F then .W         -- Hangul Jamo
  else if 0x2E80 ≤ v ∧ v ≤ 0x303E then .W         -- CJK radicals, punctuation
  else if 0x3041 ≤ v ∧ v ≤ 0x33FF then .W         -- kana, CJK compat
  else if 0x3400 ≤ v ∧ v ≤ 0x4DBF then .W         -- CJK ext A
  else if 0x4E00 ≤ v ∧ v ≤ 0x9FFF then .W         -- CJK unified ideographs
  else if 0xAC00 ≤ v ∧ v ≤ 0xD7A3 then .W         -- Hangul syllables
  else if 0xF900 ≤ v ∧ v ≤ 0xFAFF then .W         -- CJK compat ideographs
  else if 0xFF01 ≤ v ∧ v ≤ 0xFF60 then .F         -- fullwidth forms
  else if 0xFF61 ≤ v ∧ v ≤ 0xFFDC then .H         -- halfwidth forms
  else if 0xFFE0 ≤ v ∧ v ≤ 0xFFE6 then .F         -- fullwidth signs
  else if 0x20000 ≤ v ∧ v ≤ 0x3FFFD then .W       -- CJK ext B and beyond
  else .N

/-- The `char_width` dictionary of `TerminalWriter.write`
(terminalwriter.py lines 133–140): Fullwidth and Wide occupy 2 columns,
every other class 1 (the dictionary lookup's default of 1 is unreachable
since the six classes are exhaustive). -/
def char_width (w : EAW) : Nat :=
  match w with
  | .A => 1
  | .F => 2
  | .H => 1
  | .N => 1
  | .Na => 1
  | .W => 2

/-- Modelled from the Unicode canonical composition data consulted by the
source through `unicodedata.normalize('NFC', ...)` (library data, not code
of this repository): composes a base character with a following combining
mark for a few common Latin pairs, `none` for every other pair. -/
def composePair (base mark : Char) : Option Char :=
  if mark = '́' then            -- combining acute accent
    if base = 'a' then some 'á'
    else if base = 'e' then some 'é'
    else if base = 'i' then some 'í'
    else if base = 'o' then some 'ó'
    else if base = 'u' then some 'ú'
    else none
  else if mark = '̀' then       -- combining grave accent
    if base = 'a' then some 'à'
    else if base = 'e' then some 'è'
    else none
  else none

/-- Canonical composition pass over a character list (the recursive core of
the NFC model).  Structural recursion on a fuel argument; every step
consumes at least one list element, so fuel equal to the list length never
runs out. -/
def nfcAux : Nat → List Char → List Char
  | 0, l => l
  | _ + 1, [] => []
  | _ + 1, [c] => [c]
  | fuel + 1, c :: d :: rest =>
    match composePair c d with
    | some e => nfcAux fuel (e :: rest)
    | none => c :: nfcAux fuel (d :: rest)

/-- Model of `unicodedata.normalize('NFC', s)` as used by `write`:
canonically composes adjacent pairs via `composePair`, the identity on
strings without composable pairs (in particular on all ASCII and CJK
text). -/
def nfc (s : String) : String := ⟨nfcAux s.data.length s.data⟩

/-- The display-width computation of `TerminalWriter.write`
(lines 141–144): NFC-normalize, then sum per-character widths from
`char_width` over the East Asian Width class. -/
def displayWidth (s : String) : Nat :=
  ((nfc s).data.map fun c => char_width (east_asian_width c)).sum

/-- `msg.rsplit(newline, 1)[-1]` (line 129): the fragment of `msg` after its
last `'\n'`, or all of `msg` when it has none. -/
def currentLineFragment (s : String) : String :=
  ⟨(s.data.reverse.takeWhile fun c => c ≠ '\n').reverse⟩

/-- The writer's `_current_line` state (the inline `CurrentLine` class of
`__init__`, lines 51–56): character count and display width of the
unterminated tail. -/
structure CurrentLine where
  chars : Nat
  width : Nat
deriving DecidableEq, Repr

/-- The line-tracking part of `TerminalWriter.write` (lines 123–152): a
no-op on an empty message; otherwise the fragment after the last newline
replaces the tracked pair when the message contains a newline and is added
to it when it does not. -/
def writeUpdate (msg : String) (st : CurrentLine) : CurrentLine :=
  if msg = "" then st
  else
    let frag := currentLineFragment msg
    let width := displayWidth frag
    let length := frag.length
    if msg.data.contains '\n' then
      ⟨length, width⟩
    else
      ⟨st.chars + length, st.width + width⟩

/-- Folds a sequence of `write` calls over the line-tracking state, starting
from the fresh writer state `{chars := 0, width := 0}`. -/
def writeSeq (msgs : List String) : CurrentLine :=
  msgs.foldl (fun st msg => writeUpdate msg st) ⟨0, 0⟩

/-- Python's `str.rstrip()` with no argument: drop trailing whitespace.
`isPythonSpace` covers the ASCII whitespace characters Python strips. -/
def isPythonSpace (c : Char) : Bool :=
  c = ' ' || c = '\t' || c = '\n' || c = '\x0b' || c = '\x0c' || c = '\r'

/-- `sepchar.rstrip()` (line 116): the separator with trailing whitespace
removed. -/
def rstrip (s : String) : String :=
  ⟨(s.data.reverse.dropWhile isPythonSpace).reverse⟩

/-- Python string repetition `s * n` (for `n ≤ 0` the result is empty,
matching `sepchar * N` with a non-positive count). -/
def pyRepeat (s : String) : Nat → String
  | 0 => ""
  | n + 1 => s ++ pyRepeat s n

/-- The line built by `TerminalWriter.sep` (lines 90–117), non-Windows path:
`fullwidth` is the already-resolved width (Python `int`, so `Int` here).
With a title, `N = max((fullwidth - len(title) - 2) // (2*len(sepchar)), 1)`
copies of `sepchar` go on each side of `" title "`; without one,
`fullwidth // len(sepchar)` copies fill the line.  If one more
right-stripped copy of `sepchar` still fits within `fullwidth`, it is
appended.  Python `//` is floor division, hence `Int.fdiv`. -/
def sepLine (sepchar : String) (title : Option String) (fullwidth : Int) : String :=
  let line :=
    match title with
    | some t =>
      let N := max ((fullwidth - (t.length : Int) - 2).fdiv (2 * (sepchar.length : Int))) 1
      let fill := pyRepeat sepchar N.toNat
      fill ++ " " ++ t ++ " " ++ fill
    | none =>
      pyRepeat sepchar (fullwidth.fdiv (sepchar.length : Int)).toNat
  if (line.length : Int) + ((rstrip sepchar).length : Int) ≤ fullwidth then
    line ++ rstrip sepchar
  else
    line

/-- The effect of `TerminalWriter.sep` on the line-tracking state
(lines 119–120): `sep` writes the built line and then writes `"\n"`. -/
def sepState (sepchar : String) (title : Option String) (fullwidth : Int)
    (st : CurrentLine) : CurrentLine :=
  writeUpdate "\n" (writeUpdate (sepLine sepchar title fullwidth) st)

/-- The `_esctable` dictionary of `TerminalWriter.write` (lines 155–161). -/
def esctable : List (String × Nat) :=
  [("black", 30), ("red", 31), ("green", 32), ("yellow", 33),
   ("blue", 34), ("purple", 35), ("cyan", 36), ("white", 37),
   ("Black", 40), ("Red", 41), ("Green", 42), ("Yellow", 43),
   ("Blue", 44), ("Purple", 45), ("Cyan", 46), ("White", 47),
   ("bold", 1), ("light", 2), ("blink", 5), ("invert", 7)]

/-- Dictionary lookup `_esctable[name]` / membership `name in _esctable`. -/
def lookupCode (flag : String) : Option Nat :=
  (esctable.find? fun p => p.1 = flag).map (·.2)

/-- The `ValueError("unknown markup: %r" % (name,))` raised on a style-flag
name absent from `_esctable` (line 165), carrying the offending name. -/
inductive MarkupError where
  | unknownMarkup (flag : String)
deriving DecidableEq, Repr

/-- The `for name in kw` loop of `write` (lines 162–167): raises on the
first flag name absent from `_esctable`, otherwise collects the codes of
the truthy flags in order.  Style keywords are a list of
`(name, truthiness)` pairs. -/
def collectEsc : List (String × Bool) → Except MarkupError (List Nat)
  | [] => .ok []
  | (flag, v) :: rest =>
    match lookupCode flag with
    | none => .error (.unknownMarkup flag)
    | some code =>
      match collectEsc rest with
      | .error e => .error e
      | .ok codes => .ok (if v then code :: codes else codes)

/-- The markup step of `TerminalWriter.write` (lines 154–170): with markup
enabled and at least one style keyword, validate every flag name and wrap
the message in `ESC[<code>m` prefixes and the `ESC[0m` reset when any flag
is truthy; otherwise pass the message through unchanged. -/
def applyMarkup (hasmarkup : Bool) (kw : List (String × Bool)) (msg : String) :
    Except MarkupError String :=
  if hasmarkup && !kw.isEmpty then
    match collectEsc kw with
    | .error e => .error e
    | .ok esc =>
      if esc.isEmpty then .ok msg
      else .ok (String.join (esc.map fun cod => "\x1b[" ++ toString cod ++ "m")
                ++ msg ++ "\x1b[0m")
  else .ok msg

/-- `TerminalWriter.write` up to (but not including) emission to the sink:
a no-op on an empty message, otherwise the line-tracking update followed by
markup processing, which can raise `MarkupError`.  Note the source updates
`_current_line` before validating style flags, so the returned state on
error reflects the update anyway; modelling the success path, the result is
the new state and the exact string handed to the sink. -/
def write (hasmarkup : Bool) (kw : List (String × Bool)) (msg : String)
    (st : CurrentLine) : Except MarkupError (CurrentLine × String) :=
  if msg = "" then .ok (st, "")
  else
    let st' := writeUpdate msg st
    match applyMarkup hasmarkup kw msg with
    | .error e => .error e
    | .ok m => .ok (st', m)

/-- The `fullwidth` property getter (lines 58–84).  `override` models
`self._terminal_width` (present iff the setter ran); `queried` models the
terminal-size query, `none` when it raised a suppressed exception (leaving
`width = 0`); `columns` models `int(environ.get('COLUMNS', 80))`, a Python
`int` that may be zero or negative if the variable holds such a value. -/
def fullwidth_get (override : Option Int) (queried : Option Nat) (columns : Int) : Int :=
  match override with
  | some v => v
  | none =>
    let width : Nat := match queried with | some q => q | none => 0
    if width = 0 then columns
    else if width < 40 then 80
    else (width : Int)

/-- Python exceptions arising on the emission path of `write`
(lines 172–191). -/
inductive EmitError where
  | unicodeEncodeError
  | nameError (missing : String)
deriving DecidableEq, Repr

/-- What reaches the sink on the emission path. -/
inductive Emitted where
  | text (s : String)
  | bytes (enc : String) (s : String)
deriving DecidableEq, Repr

/-- In the source's escape fallback (line 189) the name `markupmsg` is read,
but no assignment to `markupmsg` exists anywhere in the function or module,
so evaluating it raises `NameError`; the binding is therefore `none`. -/
def markupmsg_binding : Option String := none

/-- Python's `msg.encode("unicode-escape").decode("ascii")`: non-ASCII and
control characters become backslash escapes.  Only reachable from the
fallback if `markupmsg` were bound. -/
def unicodeEscape (s : String) : String :=
  String.join (s.data.map fun c =>
    if c = '\\' then "\\\\"
    else if c = '\n' then "\\n"
    else if c = '\r' then "\\r"
    else if c = '\t' then "\\t"
    else if 0x20 ≤ c.val ∧ c.val ≤ 0x7E then String.mk [c]
    else "\\u" ++ (Nat.toDigits 16 c.toNat).asString)

/-- The emission path of `TerminalWriter.write` (lines 172–191).
`directOk` models whether `self._file.write(msg)` succeeds or raises
`UnicodeEncodeError`; `fileEncoding` models `self._file.encoding` (`none`
when falsy); `encodeOk` models whether `msg.encode(self._file.encoding)`
succeeds.  On the double-failure path the code evaluates the unbound name
`markupmsg`, so `NameError` propagates instead of the escaped write. -/
def emit (directOk : Bool) (fileEncoding : Option String) (encodeOk : Bool)
    (msg : String) : Except EmitError Emitted :=
  if directOk then .ok (.text msg)
  else
    let fallback : Except EmitError Emitted :=
      match markupmsg_binding with
      | none => .error (.nameError "markupmsg")
      | some m => .ok (.text (unicodeEscape m))
    match fileEncoding with
    | some enc => if encodeOk then .ok (.bytes enc msg) else fallback
    | none => fallback

/-! ### Helper lemmas -/

lemma length_pos_of_ne_empty (s : String) (h : s ≠ "") : 0 < s.length := by
  cases s with
  | mk l =>
    cases l with
    | nil => exact absurd rfl h
    | cons c cs => simp [String.length]

lemma fdiv_natCast_nonneg (a : Int) (b : Nat) (h : 0 ≤ a) :
    a.fdiv (b : Int) = ((a.toNat / b : Nat) : Int) := by
  obtain ⟨n, rfl⟩ := Int.eq_ofNat_of_zero_le h
  rw [Int.fdiv_eq_ediv _ (by positivity), Int.toNat_natCast]
  norm_cast

lemma pyRepeat_length (s : String) (n : Nat) :
    (pyRepeat s n).length = n * s.length := by
  induction n with
  | zero => simp [pyRepeat]
  | succ n ih => simp [pyRepeat, String.length_append, ih]; ring

lemma rstrip_length_le (s : String) : (rstrip s).length ≤ s.length := by
  show (s.data.reverse.dropWhile isPythonSpace).reverse.length ≤ s.data.length
  rw [List.length_reverse]
  calc (s.data.reverse.dropWhile isPythonSpace).length
      ≤ s.data.reverse.length := (List.dropWhile_sublist _).length_le
    _ = s.data.length := List.length_reverse _

lemma writeUpdate_newline (st : CurrentLine) : writeUpdate "\n" st = ⟨0, 0⟩ := by
  have h1 : ("\n" : String) ≠ "" := by decide
  have h2 : ("\n" : String).data.contains '\n' = true := by decide
  simp [writeUpdate, h1, h2]
  decide

lemma reclaim_step (L qn qm : Nat) (h : qn * L < qm * L) : qn * L + L ≤ qm * L := by
  have hq : qn < qm := Nat.lt_of_mul_lt_mul_right h
  calc qn * L + L = (qn + 1) * L := by ring
    _ ≤ qm * L := Nat.mul_le_mul_right L hq

lemma reclaim_mono_core (L r bn bm n m : Nat) (hr : r ≤ L)
    (hnm : n ≤ m) (hb : bn ≤ bm) (hstep : bn < bm → bn + L ≤ bm) :
    (if bn + r ≤ n then bn + r else bn) ≤ if bm + r ≤ m then bm + r else bm := by
  rcases Nat.eq_or_lt_of_le hb with heq | hlt
  · subst heq
    split <;> split <;> omega
  · have h2 := hstep hlt
    split <;> split <;> omega

lemma sepLine_none_length (sepchar : String) (u : Int) (hu : 0 ≤ u) :
    (sepLine sepchar none u).length =
      (if u.toNat / sepchar.length * sepchar.length + (rstrip sepchar).length ≤ u.toNat
       then u.toNat / sepchar.length * sepchar.length + (rstrip sepchar).length
       else u.toNat / sepchar.length * sepchar.length) := by
  simp only [sepLine]
  rw [fdiv_natCast_nonneg u sepchar.length hu, Int.toNat_natCast]
  have hbase : (pyRepeat sepchar (u.toNat / sepchar.length)).length
      = u.toNat / sepchar.length * sepchar.length := pyRepeat_length _ _
  generalize hk : u.toNat / sepchar.length * sepchar.length = k at *
  by_cases hC : ((pyRepeat sepchar (u.toNat / sepchar.length)).length : Int)
      + ((rstrip sepchar).length : Int) ≤ u
  · rw [if_pos hC, if_pos (show k + (rstrip sepchar).length ≤ u.toNat by
      rw [hbase] at hC; omega)]
    rw [String.length_append, hbase]
  · rw [if_neg hC, if_neg (show ¬(k + (rstrip sepchar).length ≤ u.toNat) by
      rw [hbase] at hC; omega)]
    exact hbase

/-! ### Claim theorems -/

/-- Claim C1: across any sequence of `write` calls the tracked
`current_line` state follows the unterminated tail — a message containing a
newline replaces `{chars, width}` with the values of the fragment after its
last newline, and a message without one adds the fragment's values; writing
`"ab"`, `"cd\n"`, `"e"` from a fresh state leaves `{chars := 1, width := 1}`. -/
theorem write_tracks_unterminated_tail (msg : String) (st : CurrentLine)
    (h : msg ≠ "") :
    ('\n' ∈ msg.data →
      writeUpdate msg st =
        ⟨(currentLineFragment msg).length, displayWidth (currentLineFragment msg)⟩) ∧
    ('\n' ∉ msg.data →
      writeUpdate msg st =
        ⟨st.chars + (currentLineFragment msg).length,
         st.width + displayWidth (currentLineFragment msg)⟩) ∧
    writeSeq ["ab", "cd\n", "e"] = ⟨1, 1⟩ := by
  refine ⟨fun hc => ?_, fun hc => ?_, by decide⟩ <;> simp [writeUpdate, h, hc]

/-- Witness for C1 at `msg := "cd\n"`, `st := ⟨2, 2⟩`. -/
theorem write_tracks_unterminated_tail_witness :
    writeUpdate "cd\n" ⟨2, 2⟩ =
      ⟨(currentLineFragment "cd\n").length, displayWidth (currentLineFragment "cd\n")⟩ ∧
    writeSeq ["ab", "cd\n", "e"] = ⟨1, 1⟩ :=
  ⟨(write_tracks_unterminated_tail "cd\n" ⟨2, 2⟩ (by decide)).1 (by simp),
   (write_tracks_unterminated_tail "cd\n" ⟨2, 2⟩ (by decide)).2.2⟩

/-- Claim C2: the display width is computed over the NFC-normalized
fragment with East Asian Width classes Fullwidth and Wide counting 2
columns and all other classes 1; `write("漢")` on a fresh line yields
`{chars := 1, width := 2}`. -/
theorem write_width_east_asian (s : String) :
    displayWidth s =
      ((nfc s).data.map fun c =>
        if east_asian_width c = EAW.F ∨ east_asian_width c = EAW.W then 2 else 1).sum ∧
    writeUpdate "漢" ⟨0, 0⟩ = ⟨1, 2⟩ := by
  constructor
  · unfold displayWidth
    have hfun : ∀ c : Char, char_width (east_asian_width c) =
        if east_asian_width c = EAW.F ∨ east_asian_width c = EAW.W then 2 else 1 := by
      intro c
      cases h : east_asian_width c <;> simp [char_width, h]
    simp only [hfun]
  · decide

/-- Claim C3 (code bug): when the direct sink write raises
`UnicodeEncodeError` and either re-encoding to the sink's own encoding also
fails or the sink reports no encoding, the escape fallback evaluates the
name `markupmsg`, which is bound nowhere in the module, so `NameError`
propagates and the escaped message is never written. -/
theorem write_escape_fallback_name_error (msg enc : String) (encodeOk : Bool) :
    emit false (some enc) false msg = .error (.nameError "markupmsg") ∧
    emit false none encodeOk msg = .error (.nameError "markupmsg") :=
  ⟨rfl, rfl⟩

/-- Counterexample to claim C4 as stated: `sep("-", title="X", fullwidth=10)`
emits `"--- X ----"` (10 characters, an extra dash reclaimed on the right),
not the claimed symmetric `"--- X ---"`. -/
theorem sep_title_example_counterexample :
    sepLine "-" (some "X") 10 = "--- X ----" ∧
    sepLine "-" (some "X") 10 ≠ "--- X ---" := by decide

/-- Claim C4 (amended): the base line built by `sep` with a title is
symmetric — `N` separator copies on each side of `" title "` — but the
emitted line may carry one extra right-stripped separator copy on the right
when it still fits, so `sep("-", title="X", fullwidth=10)` emits
`"--- X ----"` (10 characters) followed by a line terminator. -/
theorem sep_title_line_structure (sepchar t : String) (w : Int)
    (h : sepchar ≠ "") :
    (sepLine sepchar (some t) w =
        pyRepeat sepchar
            (max ((w - (t.length : Int) - 2).fdiv (2 * (sepchar.length : Int))) 1).toNat
          ++ " " ++ t ++ " "
          ++ pyRepeat sepchar
            (max ((w - (t.length : Int) - 2).fdiv (2 * (sepchar.length : Int))) 1).toNat ∨
     sepLine sepchar (some t) w =
        pyRepeat sepchar
            (max ((w - (t.length : Int) - 2).fdiv (2 * (sepchar.length : Int))) 1).toNat
          ++ " " ++ t ++ " "
          ++ pyRepeat sepchar
            (max ((w - (t.length : Int) - 2).fdiv (2 * (sepchar.length : Int))) 1).toNat
          ++ rstrip sepchar) ∧
    sepLine "-" (some "X") 10 = "--- X ----" := by
  constructor
  · simp only [sepLine]
    split
    · right; rfl
    · left; rfl
  · decide

/-- Witness for C4 (amended) at `sepchar := "-"`, `t := "X"`, `w := 10`. -/
theorem sep_title_line_structure_witness :
    (sepLine "-" (some "X") 10 =
        pyRepeat "-" (max ((10 - (("X" : String).length : Int) - 2).fdiv
            (2 * (("-" : String).length : Int))) 1).toNat
          ++ " " ++ "X" ++ " "
          ++ pyRepeat "-" (max ((10 - (("X" : String).length : Int) - 2).fdiv
            (2 * (("-" : String).length : Int))) 1).toNat ∨
     sepLine "-" (some "X") 10 =
        pyRepeat "-" (max ((10 - (("X" : String).length : Int) - 2).fdiv
            (2 * (("-" : String).length : Int))) 1).toNat
          ++ " " ++ "X" ++ " "
          ++ pyRepeat "-" (max ((10 - (("X" : String).length : Int) - 2).fdiv
            (2 * (("-" : String).length : Int))) 1).toNat
          ++ rstrip "-") ∧
    sepLine "-" (some "X") 10 = "--- X ----" :=
  sep_title_line_structure "-" "X" 10 (by decide)

/-- Counterexample to claim C5 as stated: with the non-empty separator
`"-"`, title `"0123456789A"` and width `5 ≥ 0`, the emitted line has length
15, exceeding the resolved width. -/
theorem sep_title_overlong_counterexample :
    (sepLine "-" (some "0123456789A") 5).length = 15 ∧
    ¬((sepLine "-" (some "0123456789A") 5).length ≤ 5) := by decide

/-- Claim C5 (amended): the length bound holds whenever the width leaves
room for the title plus two spaces plus one separator copy per side, i.e.
`len(title) + 2 + 2*len(sepchar) ≤ width`; then the emitted line (base
fill of `N = max((width - len(title) - 2) // (2*len(sepchar)), 1)` copies
per side, plus the possible reclaimed right copy) has length ≤ width. -/
theorem sep_title_length_le (sepchar t : String) (w : Int)
    (hs : sepchar ≠ "")
    (hw : (t.length : Int) + 2 + 2 * (sepchar.length : Int) ≤ w) :
    ((sepLine sepchar (some t) w).length : Int) ≤ w := by
  have hL : 0 < sepchar.length := length_pos_of_ne_empty sepchar hs
  have ha : 0 ≤ w - (t.length : Int) - 2 := by omega
  have hcast : (2 * (sepchar.length : Int)) = ((2 * sepchar.length : Nat) : Int) := by
    push_cast; ring
  have hfd : (w - (t.length : Int) - 2).fdiv (2 * (sepchar.length : Int)) =
      (((w - (t.length : Int) - 2).toNat / (2 * sepchar.length) : Nat) : Int) := by
    rw [hcast]
    exact fdiv_natCast_nonneg _ _ ha
  have hn1 : 1 ≤ (w - (t.length : Int) - 2).toNat / (2 * sepchar.length) := by
    rw [Nat.one_le_div_iff (by omega)]
    omega
  have hkey : ((w - (t.length : Int) - 2).toNat / (2 * sepchar.length)) * (2 * sepchar.length)
      ≤ (w - (t.length : Int) - 2).toNat := Nat.div_mul_le_self _ _
  have hmax : max ((w - (t.length : Int) - 2).fdiv (2 * (sepchar.length : Int))) 1 =
      (((w - (t.length : Int) - 2).toNat / (2 * sepchar.length) : Nat) : Int) := by
    rw [hfd]
    exact max_eq_left (by exact_mod_cast hn1)
  have hprod : ((w - (t.length : Int) - 2).toNat / (2 * sepchar.length)) * (2 * sepchar.length)
      = ((w - (t.length : Int) - 2).toNat / (2 * sepchar.length)) * sepchar.length
        + ((w - (t.length : Int) - 2).toNat / (2 * sepchar.length)) * sepchar.length := by
    ring
  rw [hprod] at hkey
  simp only [sepLine]
  rw [hmax, Int.toNat_natCast]
  have hfill : (pyRepeat sepchar ((w - (t.length : Int) - 2).toNat / (2 * sepchar.length))).length
      = ((w - (t.length : Int) - 2).toNat / (2 * sepchar.length)) * sepchar.length :=
    pyRepeat_length _ _
  generalize hk : ((w - (t.length : Int) - 2).toNat / (2 * sepchar.length)) * sepchar.length
      = k at *
  split
  · next hC =>
    rw [String.length_append]
    simp only [String.length_append, hfill] at hC ⊢
    omega
  · next hC =>
    simp only [String.length_append, hfill]
    have hsp : (" " : String).length = 1 := by decide
    rw [hsp]
    omega

/-- Witness for C5 (amended) at `sepchar := "-"`, `t := "X"`, `w := 10`. -/
theorem sep_title_length_le_witness :
    ((sepLine "-" (some "X") 10).length : Int) ≤ 10 :=
  sep_title_length_le "-" "X" 10 (by decide) (by decide)

/-- Claim C6: for a non-empty separator character and widths ≥ 0, the
untitled separator line has length ≤ the requested width, and the length is
non-decreasing in the width. -/
theorem sep_no_title_le_and_mono (sepchar : String) (w w' : Int)
    (hs : sepchar ≠ "") (h0 : 0 ≤ w) (hww : w ≤ w') :
    ((sepLine sepchar none w).length : Int) ≤ w ∧
    (sepLine sepchar none w).length ≤ (sepLine sepchar none w').length := by
  have hL : 0 < sepchar.length := length_pos_of_ne_empty sepchar hs
  have hr : (rstrip sepchar).length ≤ sepchar.length := rstrip_length_le sepchar
  have h0' : 0 ≤ w' := le_trans h0 hww
  have hnm : w.toNat ≤ w'.toNat := Int.toNat_le_toNat hww
  have hq : w.toNat / sepchar.length ≤ w'.toNat / sepchar.length :=
    Nat.div_le_div_right hnm
  have hbn : w.toNat / sepchar.length * sepchar.length ≤ w.toNat :=
    Nat.div_mul_le_self _ _
  have hb : w.toNat / sepchar.length * sepchar.length
      ≤ w'.toNat / sepchar.length * sepchar.length :=
    Nat.mul_le_mul_right _ hq
  have hstep : w.toNat / sepchar.length * sepchar.length
        < w'.toNat / sepchar.length * sepchar.length →
      w.toNat / sepchar.length * sepchar.length + sepchar.length
        ≤ w'.toNat / sepchar.length * sepchar.length :=
    reclaim_step sepchar.length _ _
  rw [sepLine_none_length sepchar w h0, sepLine_none_length sepchar w' h0']
  generalize hkn : w.toNat / sepchar.length * sepchar.length = bn at *
  generalize hkm : w'.toNat / sepchar.length * sepchar.length = bm at *
  constructor
  · split <;> omega
  · exact reclaim_mono_core sepchar.length (rstrip sepchar).length bn bm
      w.toNat w'.toNat hr hnm hb hstep

/-- Witness for C6 at `sepchar := "-"`, `w := 3`, `w' := 10`. -/
theorem sep_no_title_le_and_mono_witness :
    ((sepLine "-" none 3).length : Int) ≤ 3 ∧
    (sepLine "-" none 3).length ≤ (sepLine "-" none 10).length :=
  sep_no_title_le_and_mono "-" 3 10 (by decide) (by decide) (by decide)

/-- Counterexample to claim C7 as stated: setting the override to `0` makes
the getter return `0`, which is not ≥ 1. -/
theorem fullwidth_zero_override_counterexample :
    fullwidth_get (some 0) none 80 = 0 ∧
    ¬(1 ≤ fullwidth_get (some 0) none 80) := by decide

/-- Claim C7 (amended): the getter returns exactly the override whenever one
has been set (with no clamping, even for values ≤ 0); without an override the
result is ≥ 1 provided the `COLUMNS` fallback value (consulted only when the
queried width is 0) is ≥ 1 — queried widths 1–39 are clamped to 80 and
widths ≥ 40 returned as-is. -/
theorem fullwidth_override_exact_and_min (v : Int) (q : Option Nat) (c : Int)
    (hc : 1 ≤ c) :
    fullwidth_get (some v) q c = v ∧ 1 ≤ fullwidth_get none q c := by
  refine ⟨rfl, ?_⟩
  unfold fullwidth_get
  cases q with
  | none => simpa using hc
  | some n =>
    by_cases h0 : n = 0
    · subst h0; simpa using hc
    · by_cases h40 : n < 40
      · simp [h0, h40]
      · simp only [h0, h40, if_false, if_neg h0, if_neg h40]
        omega

/-- Witness for C7 (amended) at `v := 7`, `q := none`, `c := 80`. -/
theorem fullwidth_override_exact_and_min_witness :
    fullwidth_get (some 7) none 80 = 7 ∧ 1 ≤ fullwidth_get none none 80 :=
  fullwidth_override_exact_and_min 7 none 80 (by decide)

/-- Counterexample to claim C8 as stated: with markup disabled,
`write("x", fuchsia=True)` raises nothing — the flags are never validated
and the message is written unstyled, so the unknown name is not a hard
error "regardless of other conditions". -/
theorem unknown_flag_without_markup_counterexample :
    write false [("fuchsia", true)] "x" ⟨0, 0⟩ = .ok (⟨1, 1⟩, "x") ∧
    (write false [("fuchsia", true)] "x" ⟨0, 0⟩).isOk = true := by decide

/-- Claim C8 (amended): only when markup is enabled does `write` validate
style-flag names; a name absent from `_esctable` then raises
`ValueError("unknown markup: ...")` naming the flag, while with markup
disabled the same call succeeds and writes the plain message. -/
theorem unknown_flag_raises_value_error (msg flag : String) (v : Bool)
    (kw : List (String × Bool)) (st : CurrentLine)
    (hmsg : msg ≠ "") (hflag : lookupCode flag = none) :
    write true ((flag, v) :: kw) msg st = .error (.unknownMarkup flag) ∧
    write false ((flag, v) :: kw) msg st = .ok (writeUpdate msg st, msg) := by
  constructor <;> simp [write, applyMarkup, collectEsc, hmsg, hflag]

/-- Witness for C8 (amended) at `msg := "x"`, `flag := "fuchsia"`. -/
theorem unknown_flag_raises_value_error_witness :
    write true [("fuchsia", true)] "x" ⟨0, 0⟩ = .error (.unknownMarkup "fuchsia") ∧
    write false [("fuchsia", true)] "x" ⟨0, 0⟩ = .ok (writeUpdate "x" ⟨0, 0⟩, "x") :=
  unknown_flag_raises_value_error "x" "fuchsia" true [] ⟨0, 0⟩ (by decide) (by decide)

/-- Claim C9: with markup enabled, `write("text", bold=True)` hands the
sink exactly `"\x1b[1mtext\x1b[0m"`; with markup disabled it hands the sink
the plain `"text"`. -/
theorem bold_markup_exact_bytes :
    write true [("bold", true)] "text" ⟨0, 0⟩ =
      .ok (⟨4, 4⟩, "\x1b[1mtext\x1b[0m") ∧
    emit true (some "utf-8") true "\x1b[1mtext\x1b[0m" =
      .ok (.text "\x1b[1mtext\x1b[0m") ∧
    write false [("bold", true)] "text" ⟨0, 0⟩ = .ok (⟨4, 4⟩, "text") := by decide

/-- Claim C10: `sep` ends by writing `"\n"`, whose fragment after the last
newline is empty, so after any successful `sep` call the tracked state is
`{chars := 0, width := 0}` whatever it was before. -/
theorem sep_resets_current_line (sepchar : String) (title : Option String)
    (w : Int) (st : CurrentLine) (h : sepchar ≠ "") :
    sepState sepchar title w st = ⟨0, 0⟩ :=
  writeUpdate_newline _

/-- Witness for C10 at `sepchar := "-"`, `title := some "X"`, `w := 10`. -/
theorem sep_resets_current_line_witness :
    sepState "-" (some "X") 10 ⟨5, 7⟩ = ⟨0, 0⟩ :=
  sep_resets_current_line "-" (some "X") 10 ⟨5, 7⟩ (by decide)

end TerminalWriter
